import Mathlib

/-!
Verification of the beam-report generator (src/main.py) against its
specification.

Shallow embedding conventions:

* Python floats are modelled as rationals (`ℚ`); the numeric claims are all
  about exact decimal formatting and order comparisons, which the rational
  model captures exactly.
* A pandas `DataFrame` is modelled column-wise, as an association list from
  column names to columns of numbers — exactly the observable structure the
  program uses (`df['col']`, `len(df)`, `df.iloc[::step]`, `iterrows`).
  `KeyError` on a missing column and `ValueError` on empty reductions are
  modelled with `Except String`; an `Except.error` escaping `main` models an
  uncaught Python exception aborting the process.
* The outside world is a parameter: the outcome of `pd.read_excel` is an
  `ExcelRead` value, the outcome of `os.path.exists(beam_image_path)` a
  `Bool`, and the outcome of `doc.generate_pdf` (the external LaTeX
  toolchain) a `RenderOutcome`.
* Markup fragments are modelled by their data payload: the TikZ chart
  fragments by their ordered coordinate lists, the tabular fragment by its
  ordered list of formatted (position, shear, moment) triples, and the
  assembled PyLaTeX document by the ordered list of content blocks appended
  to it.  Python's fixed-point format specifiers `.1f` / `.2f` are modelled
  by `fmtFixed 1` / `fmtFixed 2` (round to nearest multiple of 10^-nd, ties
  to even, as float formatting does).
* `print` output is modelled as the ordered list of printed lines returned
  by `main` / `generate_report`.
-/

/-- Rounds a rational to the nearest integer, ties to even — the rounding
used by Python fixed-point float formatting (`format(v, '.2f')`). -/
def rne (q : ℚ) : ℤ :=
  let f := ⌊q⌋
  if q - f < 1/2 then f
  else if q - f > 1/2 then f + 1
  else if f % 2 = 0 then f else f + 1

/-- Models Python `f"{v:.ndf}"`: the displayed value, as an exact rational
(a multiple of `10^-nd`). -/
def fmtFixed (nd : Nat) (q : ℚ) : ℚ := (rne (q * 10 ^ nd) : ℚ) / 10 ^ nd

/-- One row of the beam dataset: position `x`, shear force, bending moment
(columns `x`, `Shear force`, `Bending Moment` of the Excel sheet). -/
structure BeamRow where
  x : ℚ
  shear : ℚ
  moment : ℚ
deriving DecidableEq

/-- A pandas DataFrame, modelled column-wise: column name ↦ column values.
Only the observable operations the program performs are modelled. -/
abbrev DataFrame := List (String × List ℚ)

/-- Column access `df[c]`; `none` models a `KeyError`. -/
def getCol (df : DataFrame) (c : String) : Option (List ℚ) := df.lookup c

/-- `len(df)`: the number of rows (length of the first column; every
DataFrame the program builds has equal-length columns). -/
def nRows (df : DataFrame) : Nat :=
  match df with
  | [] => 0
  | c :: _ => c.2.length

/-- Column access in an exception-propagating context: `df[c]` raising
`KeyError` when the column is absent. -/
def getColE (df : DataFrame) (c : String) : Except String (List ℚ) :=
  match getCol df c with
  | some l => Except.ok l
  | none => Except.error ("KeyError: " ++ c)

/-- The well-formed DataFrame holding the given rows: exactly what
`pd.read_excel` yields for a sheet with the three required columns. -/
def dfOfRows (rows : List BeamRow) : DataFrame :=
  [("x", rows.map (·.x)),
   ("Shear force", rows.map (·.shear)),
   ("Bending Moment", rows.map (·.moment))]

/-- Python slice `l[::2]`: every second element, starting from the first. -/
def everySecond {α : Type} : List α → List α
  | [] => []
  | [a] => [a]
  | a :: _ :: rest => a :: everySecond rest

/-- Python slice `l[::step]` for the two stride values the program uses
(`step` is `1 if len(beam_df) <= 15 else 2` at src/main.py:124). -/
def stridedSlice {α : Type} (l : List α) (step : Nat) : List α :=
  if step = 1 then l else everySecond l

/-- `df.iloc[::step]`: the row-stride applied to every column. -/
def dfILocStride (df : DataFrame) (step : Nat) : DataFrame :=
  df.map (fun c => (c.1, stridedSlice c.2 step))

/-- Rebuilds the row records out of the three columns (the per-row view
`row['x'], row['Shear force'], row['Bending Moment']` of `iterrows`). -/
def zipRecords : List ℚ → List ℚ → List ℚ → List BeamRow
  | x :: xs, s :: ss, m :: ms => ⟨x, s, m⟩ :: zipRecords xs ss ms
  | _, _, _ => []

/-- Models the `for idx, row in df.iterrows()` loop body's column accesses:
each iteration reads `row['x']`, `row['Shear force']`, `row['Bending
Moment']`, raising `KeyError` at the first absent column — which happens
only when the loop runs at least once (at least one row). -/
def iterRecords (df : DataFrame) : Except String (List BeamRow) :=
  if nRows df = 0 then Except.ok []
  else
    match getCol df "x", getCol df "Shear force", getCol df "Bending Moment" with
    | some xs, some ss, some ms => Except.ok (zipRecords xs ss ms)
    | none, _, _ => Except.error "KeyError: x"
    | some _, none, _ => Except.error "KeyError: Shear force"
    | some _, some _, none => Except.error "KeyError: Bending Moment"

/-- pandas `Series.max()`: `NaN` (here `none`) on an empty series, the
maximum element otherwise (src/main.py:182, 201). -/
def pdMax : List ℚ → Option ℚ
  | [] => none
  | a :: l => some (l.foldl max a)

/-- pandas `Series.min()` (src/main.py:182). -/
def pdMin : List ℚ → Option ℚ
  | [] => none
  | a :: l => some (l.foldl min a)

/-- Python built-in `min` over a list: `ValueError` on an empty list
(src/main.py:227). -/
def pyMin : List ℚ → Except String ℚ
  | [] => Except.error "ValueError: min() arg is an empty sequence"
  | a :: l => Except.ok (l.foldl min a)

/-- Python built-in `max` over a list (src/main.py:227, 241). -/
def pyMax : List ℚ → Except String ℚ
  | [] => Except.error "ValueError: max() arg is an empty sequence"
  | a :: l => Except.ok (l.foldl max a)

/-- `beam_length = beam_df['x'].max() - beam_df['x'].min()`
(src/main.py:182); `none` models the NaN produced on an empty column. -/
def beam_length (xs : List ℚ) : Option ℚ :=
  match pdMax xs, pdMin xs with
  | some hi, some lo => some (hi - lo)
  | _, _ => none

/-- `max_shear = beam_df['Shear force'].abs().max()` (src/main.py:200). -/
def max_shear (ss : List ℚ) : Option ℚ := pdMax (ss.map (fun v => |v|))

/-- Scanning helper of `idxmax`: pandas keeps the earlier index unless a
strictly greater value appears later. `best`/`bestIdx` are the running
maximum and the index of its first occurrence, `i` the index of the next
element. -/
def idxmaxAux : ℚ → Nat → Nat → List ℚ → Nat
  | _, bestIdx, _, [] => bestIdx
  | best, bestIdx, i, a :: rest =>
      if best < a then idxmaxAux a i (i + 1) rest
      else idxmaxAux best bestIdx (i + 1) rest

/-- pandas `Series.idxmax()`: index of the first occurrence of the maximum;
`none` models the `ValueError` raised on an empty series. -/
def idxmax : List ℚ → Option Nat
  | [] => none
  | a :: rest => some (idxmaxAux a 0 1 rest)

/-- `max_moment_location = beam_df.loc[beam_df['Bending Moment'].idxmax(), 'x']`
(src/main.py:202): `idxmax` on the moment column, then the `x` value at that
row label. -/
def max_moment_location (xs ms : List ℚ) : Except String ℚ :=
  match idxmax ms with
  | none => Except.error "ValueError: attempt to get argmax of an empty sequence"
  | some i =>
    match xs[i]? with
    | some v => Except.ok v
    | none => Except.error "KeyError: x"

/-- `create_tikz_sfd` (src/main.py:34-67): the shear chart fragment carries
the coordinate pairs `f"({x},{y})"` — zipped, raw, unrounded. -/
def create_tikz_sfd (x_data y_data : List ℚ) : List (ℚ × ℚ) :=
  x_data.zip y_data

/-- `create_tikz_bmd` (src/main.py:70-103): the moment chart fragment
carries the coordinate pairs `f"({x},{y:.2f})"` — zipped, with the moment
value formatted to 2 decimal places. -/
def create_tikz_bmd (x_data y_data : List ℚ) : List (ℚ × ℚ) :=
  (x_data.zip y_data).map (fun p => (p.1, fmtFixed 2 p.2))

/-- `create_data_table` (src/main.py:106-133): the table fragment, as its
ordered list of data rows.  `step = 1 if len(beam_df) <= 15 else 2`, the
rows of `beam_df.iloc[::step]` are traversed in order, and each emitted row
is formatted `f"{row['x']:.1f} & {row['Shear force']:.2f} &
{row['Bending Moment']:.2f}"`. -/
def create_data_table (beam_df : DataFrame) : Except String (List (ℚ × ℚ × ℚ)) := do
  let step := if nRows beam_df ≤ 15 then 1 else 2
  let recs ← iterRecords (dfILocStride beam_df step)
  pure (recs.map (fun row => (fmtFixed 1 row.x, fmtFixed 2 row.shear, fmtFixed 2 row.moment)))

/-- One content block appended to the PyLaTeX document, in order. -/
inductive Block where
  | command (s : String)
  | text (s : String)
  | sectionHeader (title : String)
  | subsectionHeader (title : String)
  | image (path : String) (caption : String)
  | table (rows : List (ℚ × ℚ × ℚ))
  | sfd (coords : List (ℚ × ℚ))
  | bmd (coords : List (ℚ × ℚ))
  | stat (label : String) (value : Option ℚ)
  | itemize (items : List String)
deriving DecidableEq

/-- The assembled document: the ordered sequence of content blocks. -/
structure Report where
  blocks : List Block
deriving DecidableEq

/-- Outcome of `doc.generate_pdf` — the external LaTeX toolchain. -/
inductive RenderOutcome where
  | ok
  | fail (msg : String)
deriving DecidableEq

/-- The lines printed by the `try/except` around `doc.generate_pdf`
(src/main.py:258-263). -/
def renderPrints (render : RenderOutcome) (output_path : String) : List String :=
  match render with
  | RenderOutcome.ok => ["Report successfully generated: " ++ output_path]
  | RenderOutcome.fail e =>
      ["Error generating PDF: " ++ e,
       "Make sure you have LaTeX installed (MiKTeX, TeX Live, or MacTeX)"]

/-- The ordered block sequence `generate_report` appends to the document
(src/main.py:146-256), abstracted over the values computed from the
dataset.  Numeric stats carry the value as displayed (format spec already
applied); `none` displays as `nan`. -/
def assembledBlocks (beam_image_path : String) (imageExists : Bool)
    (beamLen : Option ℚ) (nPoints : Nat) (tbl : List (ℚ × ℚ × ℚ))
    (maxShearV maxMomentV : Option ℚ) (loc : ℚ)
    (sfdCoords bmdCoords : List (ℚ × ℚ))
    (shearLo shearHi momentHi : ℚ) : List Block :=
  [Block.command "maketitle",
   Block.command "tableofcontents",
   Block.command "newpage",
   Block.sectionHeader "Introduction",
   Block.text "This report presents the structural analysis of a simply supported beam. ",
   Block.text "The beam consists of a pinned support on the left end and a roller support on the right end, ",
   Block.text "allowing for horizontal movement while providing vertical support.",
   Block.text "The analysis includes the complete shear force distribution and bending moment distribution ",
   Block.text "along the length of the beam.",
   Block.text "Data Source: ",
   Block.text "Analysis data has been imported from the Excel file: Force.xlsx"]
  ++ (if imageExists then
        [Block.image beam_image_path "Simply Supported Beam Configuration"]
      else [])
  ++ [Block.text "Beam Properties:",
      Block.stat "Total Beam Length (m)" (beamLen.map (fmtFixed 1)),
      Block.stat "Number of Analysis Points" (some (nPoints : ℚ)),
      Block.command "newpage",
      Block.sectionHeader "Analysis Data",
      Block.text "The following table shows the calculated shear force and bending moment values ",
      Block.text "at various positions along the beam:",
      Block.table tbl,
      Block.text "Key Analysis Results:",
      Block.stat "Maximum Shear Force (kN)" (maxShearV.map (fmtFixed 2)),
      Block.stat "Maximum Bending Moment (kNm)" (maxMomentV.map (fmtFixed 2)),
      Block.stat "Location of Maximum Moment (m from left support)" (some (fmtFixed 2 loc)),
      Block.command "newpage",
      Block.sectionHeader "Structural Analysis Diagrams",
      Block.subsectionHeader "Shear Force Diagram (SFD)",
      Block.text "The shear force diagram shows the variation of shear force along the length of the beam. ",
      Block.text "Shear force represents the internal force acting perpendicular to the beam axis.",
      Block.sfd sfdCoords,
      Block.stat "The shear force varies from (kN)" (some (fmtFixed 2 shearLo)),
      Block.stat "The shear force varies to (kN)" (some (fmtFixed 2 shearHi)),
      Block.subsectionHeader "Bending Moment Diagram (BMD)",
      Block.text "The bending moment diagram shows the variation of bending moment along the length of the beam. ",
      Block.text "Bending moment represents the internal moment that causes the beam to bend.",
      Block.bmd bmdCoords,
      Block.stat "The maximum bending moment is (kNm)" (some (fmtFixed 2 momentHi)),
      Block.stat "occurring at (m from the left support)" (some (fmtFixed 2 loc)),
      Block.command "newpage",
      Block.sectionHeader "Conclusion",
      Block.text "The structural analysis of the simply supported beam has been completed. ",
      Block.text "The shear force and bending moment diagrams provide essential information for:",
      Block.itemize
        ["Determining critical sections for design",
         "Calculating required beam dimensions",
         "Selecting appropriate materials",
         "Ensuring structural safety and stability"],
      Block.text "These results form the foundation for detailed structural design and verification."]

/-- `generate_report` (src/main.py:136-263).  Computations appear in the
order the Python statements execute them, so the first exception wins, as
in the source.  `imageExists` is the outcome of
`os.path.exists(beam_image_path)`; `render` the outcome of
`doc.generate_pdf`.  Returns the assembled document and the printed
lines. -/
def generate_report (beam_df : DataFrame) (beam_image_path : String)
    (imageExists : Bool) (render : RenderOutcome) (output_path : String) :
    Except String (Report × List String) := do
  let xs ← getColE beam_df "x"
  let beamLen := beam_length xs
  let nPoints := nRows beam_df
  let tbl ← create_data_table beam_df
  let ss ← getColE beam_df "Shear force"
  let maxShearV := max_shear ss
  let ms ← getColE beam_df "Bending Moment"
  let maxMomentV := pdMax ms
  let loc ← max_moment_location xs ms
  let sfdCoords := create_tikz_sfd xs ss
  let shearLo ← pyMin ss
  let shearHi ← pyMax ss
  let bmdCoords := create_tikz_bmd xs ms
  let momentHi ← pyMax ms
  pure (⟨assembledBlocks beam_image_path imageExists beamLen nPoints tbl
           maxShearV maxMomentV loc sfdCoords bmdCoords shearLo shearHi momentHi⟩,
        renderPrints render output_path)

/-- Outcome of `pd.read_excel(excel_path)`: either a parsed table or a
raised exception (missing file, unreadable format, ...). -/
inductive ExcelRead where
  | ok (df : DataFrame)
  | err (msg : String)

/-- `read_beam_data` (src/main.py:14-31): wraps `pd.read_excel` in
`try/except`; on success returns the DataFrame unchanged (no validation of
columns or row count), on failure prints the cause and returns `None`. -/
def read_beam_data : ExcelRead → Option DataFrame × List String
  | ExcelRead.ok df =>
      (some df,
       ["Successfully read " ++ toString (nRows df) ++ " data points from Excel file",
        "Columns: " ++ String.intercalate ", " (df.map Prod.fst)])
  | ExcelRead.err e => (none, ["Error reading Excel file: " ++ e])

/-- `main` (src/main.py:266-286), named `mainRun` since Lean reserves `main`: orchestrates the run.  Returns the
ordered printed lines; an `Except.error` is an uncaught Python exception
aborting the process.  Note the success banner is printed unconditionally
once `generate_report` returns. -/
def mainRun (excel : ExcelRead) (imageExists : Bool) (render : RenderOutcome) :
    Except String (List String) :=
  let pre := ["Reading beam analysis data from Excel..."]
  match read_beam_data excel with
  | (some beam_df, loadMsgs) =>
      (generate_report beam_df "images/Beam.png" imageExists render "output/report.pdf").map
        (fun res =>
          pre ++ loadMsgs ++ ["Generating report..."] ++ res.2 ++
          ["✓ Report generation complete!",
           "✓ Output saved to: output/report.pdf"])
  | (none, loadMsgs) =>
      Except.ok (pre ++ loadMsgs ++ ["✗ Failed to read beam data. Report generation aborted."])

/-- The lines a run prints (empty when the run dies with an uncaught
exception). -/
def mainTrace (excel : ExcelRead) (imageExists : Bool) (render : RenderOutcome) :
    List String :=
  match mainRun excel imageExists render with
  | Except.ok tr => tr
  | Except.error _ => []

/-- Is this block the illustrative beam image figure? -/
def isImageBlock : Block → Bool
  | Block.image _ _ => true
  | _ => false

/-- The shear-chart fragments of a document, in order. -/
def sfdFragments (r : Report) : List (List (ℚ × ℚ)) :=
  r.blocks.filterMap (fun b =>
    match b with
    | Block.sfd c => some c
    | _ => none)

/-- The moment-chart fragments of a document, in order. -/
def bmdFragments (r : Report) : List (List (ℚ × ℚ)) :=
  r.blocks.filterMap (fun b =>
    match b with
    | Block.bmd c => some c
    | _ => none)

/-- The spec's end-to-end example dataset `[(0,0,0),(5,10,25),(10,-10,0)]`. -/
def sample3 : List BeamRow := [⟨0, 0, 0⟩, ⟨5, 10, 25⟩, ⟨10, -10, 0⟩]

/-- A 15-row dataset. -/
def sample15 : List BeamRow :=
  (List.range 15).map (fun (i : Nat) => BeamRow.mk i i i)

/-- A 16-row dataset. -/
def sample16 : List BeamRow :=
  (List.range 16).map (fun (i : Nat) => BeamRow.mk i i i)

/-- A dataset with a tie for the maximal moment (7 at indices 1 and 2). -/
def sampleTie : List BeamRow := [⟨0, 0, 5⟩, ⟨3, 0, 7⟩, ⟨4, 0, 7⟩]

/-- A one-row dataset with shear and moment both 12.3456. -/
def sample1 : List BeamRow := [⟨0, 123456/10000, 123456/10000⟩]

/-- A well-formed table that lacks the required `Bending Moment` column. -/
def dfNoMoment : DataFrame := [("x", [0, 5, 10]), ("Shear force", [0, 10, -10])]

/-! ## Basic reduction lemmas -/

theorem ok_bind {α β : Type} (a : α) (f : α → Except String β) :
    (Except.ok a >>= f : Except String β) = f a := rfl

theorem error_bind {α β : Type} (e : String) (f : α → Except String β) :
    ((Except.error e : Except String α) >>= f) = Except.error e := rfl

theorem pure_eq_ok {α : Type} (a : α) :
    (pure a : Except String α) = Except.ok a := rfl

theorem map_ok {α β : Type} (f : α → β) (a : α) :
    Except.map f (Except.ok a : Except String α) = Except.ok (f a) := rfl

theorem map_error {α β : Type} (f : α → β) (e : String) :
    Except.map f (Except.error e : Except String α) = Except.error e := rfl

@[simp] theorem getCol_dfOfRows_x (rows : List BeamRow) :
    getCol (dfOfRows rows) "x" = some (rows.map (·.x)) := rfl

@[simp] theorem getCol_dfOfRows_shear (rows : List BeamRow) :
    getCol (dfOfRows rows) "Shear force" = some (rows.map (·.shear)) := rfl

@[simp] theorem getCol_dfOfRows_moment (rows : List BeamRow) :
    getCol (dfOfRows rows) "Bending Moment" = some (rows.map (·.moment)) := rfl

@[simp] theorem getColE_dfOfRows_x (rows : List BeamRow) :
    getColE (dfOfRows rows) "x" = Except.ok (rows.map (·.x)) := rfl

@[simp] theorem getColE_dfOfRows_shear (rows : List BeamRow) :
    getColE (dfOfRows rows) "Shear force" = Except.ok (rows.map (·.shear)) := rfl

@[simp] theorem getColE_dfOfRows_moment (rows : List BeamRow) :
    getColE (dfOfRows rows) "Bending Moment" = Except.ok (rows.map (·.moment)) := rfl

@[simp] theorem nRows_dfOfRows (rows : List BeamRow) :
    nRows (dfOfRows rows) = rows.length := by
  simp [nRows, dfOfRows]

/-! ## Lemmas about the stride `l[::step]` -/

theorem everySecond_length {α : Type} (l : List α) :
    (everySecond l).length = (l.length + 1) / 2 := by
  induction l using everySecond.induct with
  | case1 => simp [everySecond]
  | case2 a => simp [everySecond]
  | case3 a b rest ih => simp [everySecond, ih]; omega

theorem everySecond_getElem? {α : Type} (l : List α) (k : Nat) :
    (everySecond l)[k]? = l[2 * k]? := by
  induction l using everySecond.induct generalizing k with
  | case1 => simp [everySecond]
  | case2 a =>
    cases k with
    | zero => simp [everySecond]
    | succ k =>
      have h2 : 2 * (k + 1) = 2 * k + 1 + 1 := by omega
      simp [everySecond, h2]
  | case3 a b rest ih =>
    cases k with
    | zero => simp [everySecond]
    | succ k =>
      have h2 : 2 * (k + 1) = 2 * k + 1 + 1 := by omega
      simp [everySecond, h2]
      simpa using ih k

theorem everySecond_map {α β : Type} (f : α → β) (l : List α) :
    everySecond (l.map f) = (everySecond l).map f := by
  induction l using everySecond.induct with
  | case1 => rfl
  | case2 a => rfl
  | case3 a b rest ih => simp [everySecond, ih]

theorem mem_of_mem_everySecond {α : Type} {a : α} {l : List α}
    (h : a ∈ everySecond l) : a ∈ l := by
  induction l using everySecond.induct with
  | case1 => simp [everySecond] at h
  | case2 b => exact h
  | case3 b c rest ih =>
    rcases List.mem_cons.mp (by simpa [everySecond] using h) with rfl | h2
    · exact List.mem_cons_self _ _
    · exact List.mem_cons_of_mem _ (List.mem_cons_of_mem _ (ih h2))

@[simp] theorem stridedSlice_one {α : Type} (l : List α) : stridedSlice l 1 = l := rfl

@[simp] theorem stridedSlice_two {α : Type} (l : List α) :
    stridedSlice l 2 = everySecond l := rfl

theorem stridedSlice_map {α β : Type} (f : α → β) (l : List α) (s : Nat) :
    stridedSlice (l.map f) s = (stridedSlice l s).map f := by
  by_cases h : s = 1 <;> simp [stridedSlice, h, everySecond_map]

theorem mem_of_mem_stridedSlice {α : Type} {a : α} {l : List α} {s : Nat}
    (h : a ∈ stridedSlice l s) : a ∈ l := by
  by_cases h1 : s = 1
  · simpa [stridedSlice, h1] using h
  · exact mem_of_mem_everySecond (by simpa [stridedSlice, h1] using h)

/-! ## The table pipeline on well-formed data -/

theorem zipRecords_proj (rows : List BeamRow) :
    zipRecords (rows.map (·.x)) (rows.map (·.shear)) (rows.map (·.moment)) = rows := by
  induction rows with
  | nil => rfl
  | cons r t ih => exact congrArg (List.cons r) ih

theorem iterRecords_dfOfRows (rows : List BeamRow) :
    iterRecords (dfOfRows rows) = Except.ok rows := by
  cases rows with
  | nil => rfl
  | cons r t =>
    have h : nRows (dfOfRows (r :: t)) = t.length + 1 := by simp
    simp [iterRecords, h]
    exact zipRecords_proj (r :: t)

theorem dfILocStride_dfOfRows (rows : List BeamRow) (s : Nat) :
    dfILocStride (dfOfRows rows) s = dfOfRows (stridedSlice rows s) := by
  simp [dfILocStride, dfOfRows, stridedSlice_map]

theorem create_data_table_dfOfRows (rows : List BeamRow) :
    create_data_table (dfOfRows rows) =
      Except.ok ((stridedSlice rows (if rows.length ≤ 15 then 1 else 2)).map
        (fun r => (fmtFixed 1 r.x, fmtFixed 2 r.shear, fmtFixed 2 r.moment))) := by
  simp [create_data_table, dfILocStride_dfOfRows, iterRecords_dfOfRows, ok_bind, pure_eq_ok]

/-! ## Fold lemmas for the pandas and Python reductions -/

theorem le_foldl_max (l : List ℚ) : ∀ a : ℚ, a ≤ l.foldl max a := by
  induction l with
  | nil => intro a; exact le_refl a
  | cons b t ih =>
    intro a
    rw [List.foldl_cons]
    exact le_trans (le_max_left a b) (ih (max a b))

theorem foldl_max_mem (l : List ℚ) : ∀ a : ℚ, l.foldl max a = a ∨ l.foldl max a ∈ l := by
  induction l with
  | nil => intro a; left; rfl
  | cons b t ih =>
    intro a
    rw [List.foldl_cons]
    rcases ih (max a b) with h | h
    · rcases max_choice a b with hm | hm
      · left; rw [h, hm]
      · right; rw [h, hm]; exact List.mem_cons_self b t
    · right; exact List.mem_cons_of_mem b h

theorem foldl_max_le (l : List ℚ) : ∀ (a x : ℚ), x ∈ l → x ≤ l.foldl max a := by
  induction l with
  | nil => intro a x hx; exact absurd hx (List.not_mem_nil x)
  | cons b t ih =>
    intro a x hx
    rw [List.foldl_cons]
    rcases List.mem_cons.mp hx with rfl | hxt
    · exact le_trans (le_max_right a x) (le_foldl_max t (max a x))
    · exact ih (max a b) x hxt

theorem foldl_min_le (l : List ℚ) : ∀ a : ℚ, l.foldl min a ≤ a := by
  induction l with
  | nil => intro a; exact le_refl a
  | cons b t ih =>
    intro a
    rw [List.foldl_cons]
    exact le_trans (ih (min a b)) (min_le_left a b)

theorem foldl_min_mem (l : List ℚ) : ∀ a : ℚ, l.foldl min a = a ∨ l.foldl min a ∈ l := by
  induction l with
  | nil => intro a; left; rfl
  | cons b t ih =>
    intro a
    rw [List.foldl_cons]
    rcases ih (min a b) with h | h
    · rcases min_choice a b with hm | hm
      · left; rw [h, hm]
      · right; rw [h, hm]; exact List.mem_cons_self b t
    · right; exact List.mem_cons_of_mem b h

theorem foldl_min_le_of_mem (l : List ℚ) : ∀ (a x : ℚ), x ∈ l → l.foldl min a ≤ x := by
  induction l with
  | nil => intro a x hx; exact absurd hx (List.not_mem_nil x)
  | cons b t ih =>
    intro a x hx
    rw [List.foldl_cons]
    rcases List.mem_cons.mp hx with rfl | hxt
    · exact le_trans (foldl_min_le t (min a x)) (min_le_right a x)
    · exact ih (min a b) x hxt

/-! ## Characterization of the `idxmax` scan: first occurrence of the maximum -/

theorem idxmaxAux_spec (l : List ℚ) : ∀ (b : ℚ) (bi i : Nat),
    (idxmaxAux b bi i l = bi ∧ ∀ a ∈ l, a ≤ b) ∨
    (∃ (k : Nat) (v : ℚ), l[k]? = some v ∧ idxmaxAux b bi i l = i + k ∧ b < v ∧
      (∀ (j : Nat) (w : ℚ), l[j]? = some w → w ≤ v) ∧
      (∀ (j : Nat) (w : ℚ), j < k → l[j]? = some w → w < v)) := by
  induction l with
  | nil =>
    intro b bi i
    left
    exact ⟨rfl, by simp⟩
  | cons a t ih =>
    intro b bi i
    by_cases hba : b < a
    · rcases ih a i (i + 1) with ⟨he, hall⟩ | ⟨k, v, hget, hres, hav, hle, hlt⟩
      · right
        refine ⟨0, a, List.getElem?_cons_zero, ?_, hba, ?_, ?_⟩
        · have hu : idxmaxAux b bi i (a :: t) = idxmaxAux a i (i + 1) t := by
            simp [idxmaxAux, hba]
          rw [hu, he]; omega
        · intro j w hj
          cases j with
          | zero => rw [List.getElem?_cons_zero] at hj; cases hj; exact le_refl a
          | succ j' =>
            rw [List.getElem?_cons_succ] at hj
            exact hall w (List.mem_iff_getElem?.mpr ⟨j', hj⟩)
        · intro j w hj0 _
          exact absurd hj0 (Nat.not_lt_zero j)
      · right
        refine ⟨k + 1, v, ?_, ?_, lt_trans hba hav, ?_, ?_⟩
        · rw [List.getElem?_cons_succ]; exact hget
        · have hu : idxmaxAux b bi i (a :: t) = idxmaxAux a i (i + 1) t := by
            simp [idxmaxAux, hba]
          rw [hu, hres]; omega
        · intro j w hj
          cases j with
          | zero => rw [List.getElem?_cons_zero] at hj; cases hj; exact le_of_lt hav
          | succ j' => rw [List.getElem?_cons_succ] at hj; exact hle j' w hj
        · intro j w hjk hj
          cases j with
          | zero => rw [List.getElem?_cons_zero] at hj; cases hj; exact hav
          | succ j' =>
            rw [List.getElem?_cons_succ] at hj
            exact hlt j' w (by omega) hj
    · rcases ih b bi (i + 1) with ⟨he, hall⟩ | ⟨k, v, hget, hres, hbv, hle, hlt⟩
      · left
        constructor
        · have hu : idxmaxAux b bi i (a :: t) = idxmaxAux b bi (i + 1) t := by
            simp [idxmaxAux, hba]
          rw [hu, he]
        · intro x hx
          rcases List.mem_cons.mp hx with rfl | hxt
          · exact le_of_not_lt hba
          · exact hall x hxt
      · right
        refine ⟨k + 1, v, ?_, ?_, hbv, ?_, ?_⟩
        · rw [List.getElem?_cons_succ]; exact hget
        · have hu : idxmaxAux b bi i (a :: t) = idxmaxAux b bi (i + 1) t := by
            simp [idxmaxAux, hba]
          rw [hu, hres]; omega
        · intro j w hj
          cases j with
          | zero =>
            rw [List.getElem?_cons_zero] at hj; cases hj
            exact le_of_lt (lt_of_le_of_lt (le_of_not_lt hba) hbv)
          | succ j' => rw [List.getElem?_cons_succ] at hj; exact hle j' w hj
        · intro j w hjk hj
          cases j with
          | zero =>
            rw [List.getElem?_cons_zero] at hj; cases hj
            exact lt_of_le_of_lt (le_of_not_lt hba) hbv
          | succ j' =>
            rw [List.getElem?_cons_succ] at hj
            exact hlt j' w (by omega) hj

theorem idxmax_spec (l : List ℚ) (h : l ≠ []) :
    ∃ (i : Nat) (v : ℚ), idxmax l = some i ∧ l[i]? = some v ∧
      (∀ (j : Nat) (w : ℚ), l[j]? = some w → w ≤ v) ∧
      (∀ (j : Nat) (w : ℚ), j < i → l[j]? = some w → w < v) := by
  obtain ⟨a, t, rfl⟩ := List.exists_cons_of_ne_nil h
  rcases idxmaxAux_spec t a 0 1 with ⟨he, hall⟩ | ⟨k, v, hget, hres, hav, hle, hlt⟩
  · refine ⟨0, a, by simp [idxmax, he], List.getElem?_cons_zero, ?_, ?_⟩
    · intro j w hj
      cases j with
      | zero => rw [List.getElem?_cons_zero] at hj; cases hj; exact le_refl a
      | succ j' =>
        rw [List.getElem?_cons_succ] at hj
        exact hall w (List.mem_iff_getElem?.mpr ⟨j', hj⟩)
    · intro j w hj0 _
      exact absurd hj0 (Nat.not_lt_zero j)
  · refine ⟨1 + k, v, by simp [idxmax, hres], ?_, ?_, ?_⟩
    · have h1 : 1 + k = k + 1 := by omega
      rw [h1, List.getElem?_cons_succ]; exact hget
    · intro j w hj
      cases j with
      | zero => rw [List.getElem?_cons_zero] at hj; cases hj; exact le_of_lt hav
      | succ j' => rw [List.getElem?_cons_succ] at hj; exact hle j' w hj
    · intro j w hjk hj
      cases j with
      | zero => rw [List.getElem?_cons_zero] at hj; cases hj; exact hav
      | succ j' =>
        rw [List.getElem?_cons_succ] at hj
        exact hlt j' w (by omega) hj

theorem idxmax_lt_length (l : List ℚ) (i : Nat) (h : idxmax l = some i) :
    i < l.length := by
  cases l with
  | nil => cases h
  | cons a t =>
    rcases idxmax_spec (a :: t) (List.cons_ne_nil a t) with ⟨i', v, hidx, hget, _, _⟩
    rw [h] at hidx
    cases hidx
    by_contra hc
    push_neg at hc
    rw [List.getElem?_eq_none hc] at hget
    cases hget

/-! ## The chart fragments on well-formed data -/

theorem create_tikz_sfd_maps (rows : List BeamRow) :
    create_tikz_sfd (rows.map (·.x)) (rows.map (·.shear)) =
      rows.map (fun r => (r.x, r.shear)) := by
  simp [create_tikz_sfd, List.zip_map']

theorem create_tikz_bmd_maps (rows : List BeamRow) :
    create_tikz_bmd (rows.map (·.x)) (rows.map (·.moment)) =
      rows.map (fun r => (r.x, fmtFixed 2 r.moment)) := by
  simp [create_tikz_bmd, List.zip_map', List.map_map]

/-! ## Running `generate_report` on a well-formed, non-empty dataset -/

theorem generate_report_dfOfRows (rows : List BeamRow) (h : rows ≠ [])
    (p out : String) (img : Bool) (rnd : RenderOutcome) :
    ∃ loc shearLo shearHi momentHi : ℚ,
      generate_report (dfOfRows rows) p img rnd out =
        Except.ok
          (⟨assembledBlocks p img (beam_length (rows.map (·.x))) rows.length
              ((stridedSlice rows (if rows.length ≤ 15 then 1 else 2)).map
                (fun r => (fmtFixed 1 r.x, fmtFixed 2 r.shear, fmtFixed 2 r.moment)))
              (max_shear (rows.map (·.shear))) (pdMax (rows.map (·.moment))) loc
              (rows.map (fun r => (r.x, r.shear)))
              (rows.map (fun r => (r.x, fmtFixed 2 r.moment)))
              shearLo shearHi momentHi⟩,
           renderPrints rnd out) := by
  obtain ⟨r, rs, rfl⟩ := List.exists_cons_of_ne_nil h
  obtain ⟨i, v, hidx, hget, hub, hlt⟩ :=
    idxmax_spec ((r :: rs).map (·.moment)) (by simp)
  have hilen : i < ((r :: rs).map (·.x)).length := by
    have h1 := idxmax_lt_length _ i hidx
    simp only [List.length_map] at h1 ⊢
    exact h1
  obtain ⟨loc, hloc⟩ : ∃ loc, ((r :: rs).map (·.x))[i]? = some loc :=
    ⟨_, List.getElem?_eq_getElem hilen⟩
  have hml : max_moment_location ((r :: rs).map (·.x)) ((r :: rs).map (·.moment)) =
      Except.ok loc := by
    simp only [max_moment_location, hidx, hloc]
  refine ⟨loc, (rs.map (·.shear)).foldl min r.shear, (rs.map (·.shear)).foldl max r.shear,
    (rs.map (·.moment)).foldl max r.moment, ?_⟩
  have hsfd := create_tikz_sfd_maps (r :: rs)
  have hbmd := create_tikz_bmd_maps (r :: rs)
  have htbl := create_data_table_dfOfRows (r :: rs)
  have hmin : pyMin ((r :: rs).map (·.shear)) =
      Except.ok ((rs.map (·.shear)).foldl min r.shear) := rfl
  have hmax : pyMax ((r :: rs).map (·.shear)) =
      Except.ok ((rs.map (·.shear)).foldl max r.shear) := rfl
  have hmaxm : pyMax ((r :: rs).map (·.moment)) =
      Except.ok ((rs.map (·.moment)).foldl max r.moment) := rfl
  simp only [generate_report, getColE_dfOfRows_x, getColE_dfOfRows_shear,
    getColE_dfOfRows_moment, nRows_dfOfRows, htbl, hml, hsfd, hbmd, hmin, hmax, hmaxm,
    ok_bind, pure_eq_ok]

/-! ## The printed trace of a full run on a well-formed, non-empty dataset -/

theorem mainRun_dfOfRows (rows : List BeamRow) (h : rows ≠ [])
    (img : Bool) (rnd : RenderOutcome) :
    mainRun (ExcelRead.ok (dfOfRows rows)) img rnd =
      Except.ok
        (["Reading beam analysis data from Excel...",
          "Successfully read " ++ toString rows.length ++ " data points from Excel file",
          "Columns: x, Shear force, Bending Moment",
          "Generating report..."] ++
         renderPrints rnd "output/report.pdf" ++
         ["✓ Report generation complete!",
          "✓ Output saved to: output/report.pdf"]) := by
  obtain ⟨loc, lo, hi, mhi, hgr⟩ :=
    generate_report_dfOfRows rows h "images/Beam.png" "output/report.pdf" img rnd
  have hcols : "Columns: " ++ String.intercalate ", " ((dfOfRows rows).map Prod.fst) =
      "Columns: x, Shear force, Bending Moment" := rfl
  simp [mainRun, read_beam_data, hgr, hcols, map_ok]

/-! ## Block extraction over the assembled document -/

theorem any_isImage_assembledBlocks (p : String) (img : Bool) (bl : Option ℚ) (n : Nat)
    (tbl : List (ℚ × ℚ × ℚ)) (msh mm : Option ℚ) (loc : ℚ) (sc bc : List (ℚ × ℚ))
    (lo hi mhi : ℚ) :
    (assembledBlocks p img bl n tbl msh mm loc sc bc lo hi mhi).any isImageBlock = img := by
  cases img <;> simp [assembledBlocks, isImageBlock]

theorem sfdFragments_assembledBlocks (p : String) (img : Bool) (bl : Option ℚ) (n : Nat)
    (tbl : List (ℚ × ℚ × ℚ)) (msh mm : Option ℚ) (loc : ℚ) (sc bc : List (ℚ × ℚ))
    (lo hi mhi : ℚ) :
    sfdFragments ⟨assembledBlocks p img bl n tbl msh mm loc sc bc lo hi mhi⟩ = [sc] := by
  cases img <;> simp [assembledBlocks, sfdFragments]

theorem bmdFragments_assembledBlocks (p : String) (img : Bool) (bl : Option ℚ) (n : Nat)
    (tbl : List (ℚ × ℚ × ℚ)) (msh mm : Option ℚ) (loc : ℚ) (sc bc : List (ℚ × ℚ))
    (lo hi mhi : ℚ) :
    bmdFragments ⟨assembledBlocks p img bl n tbl msh mm loc sc bc lo hi mhi⟩ = [bc] := by
  cases img <;> simp [assembledBlocks, bmdFragments]

/-! ## Additional small facts used by the corrected claims -/

theorem stridedSlice_cons_ne_nil {α : Type} (a : α) (l : List α) (s : Nat) :
    stridedSlice (a :: l) s ≠ [] := by
  by_cases h : s = 1
  · simp [stridedSlice, h]
  · cases l <;> simp [stridedSlice, h, everySecond]

/-! ## Claims -/

/-- C1: for every loaded dataset, the table fragment produced by
`create_data_table` selects rows with stride 1 when the dataset has at
most 15 rows and stride 2 otherwise, preserving order and starting from
the first row: entry `k` of the table is row `step * k` of the dataset,
formatted.  In particular a 15-row dataset yields a table of length 15 and
a 16-row dataset one of length `(16+1)/2 = 8` (rows 0,2,...,14). -/
theorem C1_table_stride (rows : List BeamRow) :
    ∃ tbl, create_data_table (dfOfRows rows) = Except.ok tbl ∧
      (rows.length ≤ 15 → tbl.length = rows.length ∧
        ∀ k : Nat, tbl[k]? =
          (rows[k]?).map (fun r => (fmtFixed 1 r.x, fmtFixed 2 r.shear, fmtFixed 2 r.moment))) ∧
      (15 < rows.length → tbl.length = (rows.length + 1) / 2 ∧
        ∀ k : Nat, tbl[k]? =
          (rows[2 * k]?).map (fun r => (fmtFixed 1 r.x, fmtFixed 2 r.shear, fmtFixed 2 r.moment))) := by
  refine ⟨_, create_data_table_dfOfRows rows, ?_, ?_⟩
  · intro hle
    rw [if_pos hle, stridedSlice_one]
    refine ⟨by simp, ?_⟩
    intro k
    rw [List.getElem?_map]
  · intro hgt
    rw [if_neg (by omega), stridedSlice_two]
    refine ⟨by simp [everySecond_length], ?_⟩
    intro k
    rw [List.getElem?_map, everySecond_getElem?]

/-- C1 witness: the 15-row dataset yields a 15-row table and the 16-row
dataset an 8-row table. -/
theorem C1_table_stride_witness :
    (∃ tbl, create_data_table (dfOfRows sample15) = Except.ok tbl ∧ tbl.length = 15) ∧
    (∃ tbl, create_data_table (dfOfRows sample16) = Except.ok tbl ∧ tbl.length = 8) := by
  constructor
  · obtain ⟨tbl, htbl, hle, _⟩ := C1_table_stride sample15
    have hlen : sample15.length = 15 := by
      unfold sample15; rw [List.length_map, List.length_range]
    have h1 := (hle hlen.le).1
    rw [hlen] at h1
    exact ⟨tbl, htbl, h1⟩
  · obtain ⟨tbl, htbl, _, hgt⟩ := C1_table_stride sample16
    have hlen : sample16.length = 16 := by
      unfold sample16; rw [List.length_map, List.length_range]
    have h16 : 15 < sample16.length := by rw [hlen]; omega
    have h1 := (hgt h16).1
    rw [hlen] at h1
    norm_num at h1
    exact ⟨tbl, htbl, h1⟩

/-- C2 counterexample: the zero-row well-formed table is returned by
`read_beam_data` as a successful load (not a load error), is passed
downstream, and the run dies with the uncaught `ValueError` raised by
`idxmax` on the empty moment column — refuting that the loader rejects an
empty-but-well-formed input. -/
theorem C2_counterexample :
    (read_beam_data (ExcelRead.ok (dfOfRows []))).1 = some (dfOfRows []) ∧
    mainRun (ExcelRead.ok (dfOfRows [])) false RenderOutcome.ok =
      Except.error "ValueError: attempt to get argmax of an empty sequence" :=
  ⟨rfl, rfl⟩

/-- C2 (amended): `read_beam_data` performs no row-count validation — a
well-formed zero-row table is returned as a successful load and passed
downstream, where report generation dies with an uncaught `ValueError`
when `idxmax` is taken on the empty moment column. -/
theorem C2_empty_dataset_accepted (img : Bool) (rnd : RenderOutcome) :
    (read_beam_data (ExcelRead.ok (dfOfRows []))).1 = some (dfOfRows []) ∧
    mainRun (ExcelRead.ok (dfOfRows [])) img rnd =
      Except.error "ValueError: attempt to get argmax of an empty sequence" :=
  ⟨rfl, rfl⟩

/-- C3 counterexample: for an input that parses but lacks the required
`Bending Moment` column, `read_beam_data` returns the table as a
successful load (no load error carrying a cause), the caller proceeds, and
the run dies downstream with an uncaught `KeyError` — refuting that every
failing input (including a missing required column) yields a load error
and an aborted pipeline. -/
theorem C3_counterexample :
    (read_beam_data (ExcelRead.ok dfNoMoment)).1 = some dfNoMoment ∧
    mainRun (ExcelRead.ok dfNoMoment) false RenderOutcome.ok =
      Except.error "KeyError: Bending Moment" :=
  ⟨rfl, rfl⟩

/-- C3 (amended): a missing file or unreadable format is caught — the
loader returns `None` with a printed human-readable cause and the caller
aborts, producing no report.  A missing required column, however, is not
detected by the loader: the table is returned as a successful load and the
run dies downstream with an uncaught `KeyError`. -/
theorem C3_load_error_handling (msg : String) (img : Bool) (rnd : RenderOutcome)
    (xs ss : List ℚ) (h : xs ≠ []) :
    read_beam_data (ExcelRead.err msg) =
      (none, ["Error reading Excel file: " ++ msg]) ∧
    mainRun (ExcelRead.err msg) img rnd =
      Except.ok ["Reading beam analysis data from Excel...",
                 "Error reading Excel file: " ++ msg,
                 "✗ Failed to read beam data. Report generation aborted."] ∧
    (read_beam_data (ExcelRead.ok [("x", xs), ("Shear force", ss)])).1 =
      some [("x", xs), ("Shear force", ss)] ∧
    mainRun (ExcelRead.ok [("x", xs), ("Shear force", ss)]) img rnd =
      Except.error "KeyError: Bending Moment" := by
  obtain ⟨x0, xt, rfl⟩ := List.exists_cons_of_ne_nil h
  refine ⟨rfl, rfl, rfl, ?_⟩
  have hiter : ∀ s : Nat,
      iterRecords (dfILocStride [("x", x0 :: xt), ("Shear force", ss)] s) =
        Except.error "KeyError: Bending Moment" := by
    intro s
    have hne : ¬((stridedSlice (x0 :: xt) s).length = 0) := by
      intro hc
      exact stridedSlice_cons_ne_nil x0 xt s (List.length_eq_zero.mp hc)
    simp [iterRecords, dfILocStride, nRows, getCol, List.lookup, hne]
  have hcdt : create_data_table [("x", x0 :: xt), ("Shear force", ss)] =
      Except.error "KeyError: Bending Moment" := by
    simp [create_data_table, hiter, error_bind]
  have hgr : generate_report [("x", x0 :: xt), ("Shear force", ss)] "images/Beam.png"
      img rnd "output/report.pdf" = Except.error "KeyError: Bending Moment" := by
    simp [generate_report, getColE, getCol, List.lookup, hcdt, ok_bind, error_bind]
  simp [mainRun, read_beam_data, hgr, map_error]

/-- C3 witness: the amended claim at a concrete unreadable source and a
concrete one-row table lacking the moment column. -/
theorem C3_load_error_handling_witness :
    read_beam_data (ExcelRead.err "No such file or directory") =
      (none, ["Error reading Excel file: " ++ "No such file or directory"]) ∧
    mainRun (ExcelRead.err "No such file or directory") false RenderOutcome.ok =
      Except.ok ["Reading beam analysis data from Excel...",
                 "Error reading Excel file: " ++ "No such file or directory",
                 "✗ Failed to read beam data. Report generation aborted."] ∧
    (read_beam_data (ExcelRead.ok [("x", [1]), ("Shear force", [2])])).1 =
      some [("x", [1]), ("Shear force", [2])] ∧
    mainRun (ExcelRead.ok [("x", [1]), ("Shear force", [2])]) false RenderOutcome.ok =
      Except.error "KeyError: Bending Moment" :=
  C3_load_error_handling "No such file or directory" false RenderOutcome.ok
    [1] [2] (List.cons_ne_nil 1 [])

/-- C4 counterexample: with the spec's example dataset and a failing
renderer, the printed trace still contains the success banner — refuting
that no success confirmation is emitted when rendering fails. -/
theorem C4_counterexample :
    "✓ Report generation complete!" ∈
      mainTrace (ExcelRead.ok (dfOfRows sample3)) false (RenderOutcome.fail "latexmk not found") ∧
    ("Error generating PDF: latexmk not found") ∈
      mainTrace (ExcelRead.ok (dfOfRows sample3)) false (RenderOutcome.fail "latexmk not found") := by
  have hm := mainRun_dfOfRows sample3 (by simp [sample3]) false
    (RenderOutcome.fail "latexmk not found")
  constructor <;> simp [mainTrace, hm, renderPrints]

/-- C4 (amended): when rendering fails the failure is surfaced as a
diagnostic (the `Error generating PDF` line plus the install hint), no PDF
artifact is produced by the toolchain, but `main` does not observe the
render outcome and still prints the success confirmation lines. -/
theorem C4_render_failure_banner (rows : List BeamRow) (h : rows ≠ [])
    (img : Bool) (e : String) :
    ∃ tr, mainRun (ExcelRead.ok (dfOfRows rows)) img (RenderOutcome.fail e) = Except.ok tr ∧
      ("Error generating PDF: " ++ e) ∈ tr ∧
      "Make sure you have LaTeX installed (MiKTeX, TeX Live, or MacTeX)" ∈ tr ∧
      "✓ Report generation complete!" ∈ tr ∧
      "✓ Output saved to: output/report.pdf" ∈ tr := by
  refine ⟨_, mainRun_dfOfRows rows h img (RenderOutcome.fail e), ?_, ?_, ?_, ?_⟩ <;>
    simp [renderPrints]

/-- C4 witness: the amended claim at the spec's example dataset and a
concrete render failure. -/
theorem C4_render_failure_banner_witness :
    ∃ tr, mainRun (ExcelRead.ok (dfOfRows sample3)) false (RenderOutcome.fail "pdflatex missing") =
        Except.ok tr ∧
      ("Error generating PDF: " ++ "pdflatex missing") ∈ tr ∧
      "Make sure you have LaTeX installed (MiKTeX, TeX Live, or MacTeX)" ∈ tr ∧
      "✓ Report generation complete!" ∈ tr ∧
      "✓ Output saved to: output/report.pdf" ∈ tr :=
  C4_render_failure_banner sample3 (by simp [sample3]) false "pdflatex missing"

/-- C5: in every document assembled from a (well-formed, non-empty)
dataset, the moment chart fragment carries the dataset's (x, moment)
pairs with the moment value rounded to exactly 2 decimal places, while the
shear chart fragment carries the raw, non-rounded (x, shear) pairs, both
in dataset order. -/
theorem C5_chart_rounding (rows : List BeamRow) (h : rows ≠ [])
    (p out : String) (img : Bool) (rnd : RenderOutcome) :
    ∃ rep prints,
      generate_report (dfOfRows rows) p img rnd out = Except.ok (rep, prints) ∧
      sfdFragments rep = [rows.map (fun r => (r.x, r.shear))] ∧
      bmdFragments rep = [rows.map (fun r => (r.x, fmtFixed 2 r.moment))] := by
  obtain ⟨loc, lo, hi, mhi, hgr⟩ := generate_report_dfOfRows rows h p out img rnd
  exact ⟨_, _, hgr,
    sfdFragments_assembledBlocks _ _ _ _ _ _ _ _ _ _ _ _ _,
    bmdFragments_assembledBlocks _ _ _ _ _ _ _ _ _ _ _ _ _⟩

/-- C5 witness: for the one-row dataset with shear = moment = 12.3456 the
moment chart coordinate renders as (0, 12.35) while the shear chart
coordinate stays the unchanged (0, 12.3456). -/
theorem C5_chart_rounding_witness :
    ∃ rep prints,
      generate_report (dfOfRows sample1) "images/Beam.png" false RenderOutcome.ok
        "output/report.pdf" = Except.ok (rep, prints) ∧
      sfdFragments rep = [[((0 : ℚ), 123456/10000)]] ∧
      bmdFragments rep = [[((0 : ℚ), 1235/100)]] := by
  obtain ⟨rep, prints, hgr, hs, hb⟩ :=
    C5_chart_rounding sample1 (by simp [sample1]) "images/Beam.png" "output/report.pdf"
      false RenderOutcome.ok
  refine ⟨rep, prints, hgr, ?_, ?_⟩
  · rw [hs]; norm_num [sample1]
  · rw [hb]
    have hf : fmtFixed 2 ((123456 : ℚ)/10000) = 1235/100 := by norm_num [fmtFixed, rne]
    simp [sample1, hf]

/-- C6: for any non-empty dataset, the beam length computed at
src/main.py:182 is exactly the difference between the largest and the
smallest position value (max − min over the `x` column, not a sum). -/
theorem C6_beam_length_extremes (rows : List BeamRow) (h : rows ≠ []) :
    ∃ M m : ℚ, beam_length (rows.map (·.x)) = some (M - m) ∧
      M ∈ rows.map (·.x) ∧ (∀ y ∈ rows.map (·.x), y ≤ M) ∧
      m ∈ rows.map (·.x) ∧ (∀ y ∈ rows.map (·.x), m ≤ y) := by
  obtain ⟨r, rs, rfl⟩ := List.exists_cons_of_ne_nil h
  simp only [List.map_cons]
  refine ⟨(rs.map (fun q : BeamRow => q.x)).foldl max r.x,
    (rs.map (fun q : BeamRow => q.x)).foldl min r.x, rfl, ?_, ?_, ?_, ?_⟩
  · rcases foldl_max_mem (rs.map (fun q : BeamRow => q.x)) r.x with he | hm
    · rw [he]; exact List.mem_cons_self _ _
    · exact List.mem_cons_of_mem _ hm
  · intro y hy
    rcases List.mem_cons.mp hy with rfl | hy'
    · exact le_foldl_max _ _
    · exact foldl_max_le _ _ _ hy'
  · rcases foldl_min_mem (rs.map (fun q : BeamRow => q.x)) r.x with he | hm
    · rw [he]; exact List.mem_cons_self _ _
    · exact List.mem_cons_of_mem _ hm
  · intro y hy
    rcases List.mem_cons.mp hy with rfl | hy'
    · exact foldl_min_le _ _
    · exact foldl_min_le_of_mem _ _ _ hy'

/-- C6 witness: the hypothesis is satisfiable — the spec's example dataset
is non-empty and the theorem applies to it. -/
theorem C6_beam_length_extremes_witness :
    sample3 ≠ [] ∧
    ∃ M m : ℚ, beam_length (sample3.map (·.x)) = some (M - m) ∧
      M ∈ sample3.map (·.x) ∧ (∀ y ∈ sample3.map (·.x), y ≤ M) ∧
      m ∈ sample3.map (·.x) ∧ (∀ y ∈ sample3.map (·.x), m ≤ y) :=
  ⟨by simp [sample3], C6_beam_length_extremes sample3 (by simp [sample3])⟩

/-- C7: for any non-empty dataset, the reported maximum shear statistic
(src/main.py:200) equals the maximum over all records of |shear| — hence
it is attained by some record, bounds every record, and is
non-negative. -/
theorem C7_max_abs_shear (rows : List BeamRow) (h : rows ≠ []) :
    ∃ v : ℚ, max_shear (rows.map (·.shear)) = some v ∧ 0 ≤ v ∧
      (∃ r ∈ rows, v = |r.shear|) ∧ (∀ r ∈ rows, |r.shear| ≤ v) := by
  obtain ⟨r, rs, rfl⟩ := List.exists_cons_of_ne_nil h
  refine ⟨((rs.map (fun q : BeamRow => q.shear)).map (fun q => |q|)).foldl max |r.shear|,
    rfl, ?_, ?_, ?_⟩
  · exact le_trans (abs_nonneg r.shear) (le_foldl_max _ _)
  · rcases foldl_max_mem ((rs.map (fun q : BeamRow => q.shear)).map (fun q => |q|))
        |r.shear| with he | hm
    · exact ⟨r, List.mem_cons_self _ _, he⟩
    · obtain ⟨s, hs, hsv⟩ := List.mem_map.mp hm
      obtain ⟨q, hq, hqs⟩ := List.mem_map.mp hs
      subst hqs
      exact ⟨q, List.mem_cons_of_mem _ hq, hsv.symm⟩
  · intro q hq
    rcases List.mem_cons.mp hq with rfl | hq'
    · exact le_foldl_max _ _
    · exact foldl_max_le _ _ _ (List.mem_map.mpr ⟨q.shear, List.mem_map.mpr ⟨q, hq', rfl⟩, rfl⟩)

/-- C7 witness: the hypothesis is satisfiable — the spec's example dataset
is non-empty and the theorem applies to it. -/
theorem C7_max_abs_shear_witness :
    sample3 ≠ [] ∧
    ∃ v : ℚ, max_shear (sample3.map (·.shear)) = some v ∧ 0 ≤ v ∧
      (∃ r ∈ sample3, v = |r.shear|) ∧ (∀ r ∈ sample3, |r.shear| ≤ v) :=
  ⟨by simp [sample3], C7_max_abs_shear sample3 (by simp [sample3])⟩

/-- C8: for any non-empty dataset, the reported max-moment position
(src/main.py:202) is the position of the record at the first index
attaining the maximal moment: the chosen record bounds all moments, and
every record at a strictly smaller index has a strictly smaller moment —
so under a tie for the maximum, the record with the smallest index is
selected. -/
theorem C8_first_max_moment (rows : List BeamRow) (h : rows ≠ []) :
    ∃ (i : Nat) (r : BeamRow), idxmax (rows.map (·.moment)) = some i ∧
      rows[i]? = some r ∧
      max_moment_location (rows.map (·.x)) (rows.map (·.moment)) = Except.ok r.x ∧
      (∀ q ∈ rows, q.moment ≤ r.moment) ∧
      (∀ (j : Nat) (q : BeamRow), j < i → rows[j]? = some q → q.moment < r.moment) := by
  obtain ⟨i, v, hidx, hget, hub, hlt⟩ := idxmax_spec (rows.map (·.moment))
    (by simp only [ne_eq, List.map_eq_nil_iff]; exact h)
  have hi : i < rows.length := by
    have h1 := idxmax_lt_length _ i hidx
    simpa using h1
  obtain ⟨r, hr⟩ : ∃ r, rows[i]? = some r := ⟨rows[i], List.getElem?_eq_getElem hi⟩
  have hrm : r.moment = v := by
    have h2 := hget
    rw [List.getElem?_map, hr] at h2
    simpa using h2
  refine ⟨i, r, hidx, hr, ?_, ?_, ?_⟩
  · have hxl : (rows.map (·.x))[i]? = some r.x := by
      rw [List.getElem?_map, hr]; rfl
    simp only [max_moment_location, hidx, hxl]
  · intro q hq
    obtain ⟨j, hj⟩ := List.mem_iff_getElem?.mp hq
    have hmj : (rows.map (·.moment))[j]? = some q.moment := by
      rw [List.getElem?_map, hj]; rfl
    rw [hrm]
    exact hub j q.moment hmj
  · intro j q hji hj
    have hmj : (rows.map (·.moment))[j]? = some q.moment := by
      rw [List.getElem?_map, hj]; rfl
    rw [hrm]
    exact hlt j q.moment hji hmj

/-- C8 witness: the tie dataset (maximal moment 7 at indices 1 and 2) is
non-empty and the theorem applies to it. -/
theorem C8_first_max_moment_witness :
    sampleTie ≠ [] ∧
    ∃ (i : Nat) (r : BeamRow), idxmax (sampleTie.map (·.moment)) = some i ∧
      sampleTie[i]? = some r ∧
      max_moment_location (sampleTie.map (·.x)) (sampleTie.map (·.moment)) = Except.ok r.x ∧
      (∀ q ∈ sampleTie, q.moment ≤ r.moment) ∧
      (∀ (j : Nat) (q : BeamRow), j < i → sampleTie[j]? = some q → q.moment < r.moment) :=
  ⟨by simp [sampleTie], C8_first_max_moment sampleTie (by simp [sampleTie])⟩

/-- C9: for every document assembled from a (well-formed, non-empty)
dataset, the illustrative beam image block is present if and only if the
configured image path exists at assembly time; when it does not exist the
document simply contains no image block and assembly still succeeds
without error. -/
theorem C9_image_block_iff (rows : List BeamRow) (h : rows ≠ [])
    (p out : String) (img : Bool) (rnd : RenderOutcome) :
    ∃ rep prints,
      generate_report (dfOfRows rows) p img rnd out = Except.ok (rep, prints) ∧
      rep.blocks.any isImageBlock = img := by
  obtain ⟨loc, lo, hi, mhi, hgr⟩ := generate_report_dfOfRows rows h p out img rnd
  exact ⟨_, _, hgr, any_isImage_assembledBlocks _ _ _ _ _ _ _ _ _ _ _ _ _⟩

/-- C9 witness: with the image present the assembled document has an image
block, with it absent it has none and no error is raised. -/
theorem C9_image_block_iff_witness :
    (∃ rep prints,
      generate_report (dfOfRows sample3) "images/Beam.png" true RenderOutcome.ok
        "output/report.pdf" = Except.ok (rep, prints) ∧
      rep.blocks.any isImageBlock = true) ∧
    (∃ rep prints,
      generate_report (dfOfRows sample3) "images/Beam.png" false RenderOutcome.ok
        "output/report.pdf" = Except.ok (rep, prints) ∧
      rep.blocks.any isImageBlock = false) :=
  ⟨C9_image_block_iff sample3 (by simp [sample3]) "images/Beam.png" "output/report.pdf"
      true RenderOutcome.ok,
   C9_image_block_iff sample3 (by simp [sample3]) "images/Beam.png" "output/report.pdf"
      false RenderOutcome.ok⟩

/-- C10: every row emitted into the table fragment is the image of a
dataset record with the position formatted to exactly 1 decimal place and
the shear and moment values formatted to exactly 2 decimal places. -/
theorem C10_table_row_formatting (rows : List BeamRow) (tbl : List (ℚ × ℚ × ℚ))
    (h : create_data_table (dfOfRows rows) = Except.ok tbl) :
    ∀ t ∈ tbl, ∃ r ∈ rows,
      t = (fmtFixed 1 r.x, fmtFixed 2 r.shear, fmtFixed 2 r.moment) := by
  rw [create_data_table_dfOfRows] at h
  have htbl := (Except.ok.inj h).symm
  subst htbl
  intro t ht
  obtain ⟨r, hr, hrt⟩ := List.mem_map.mp ht
  exact ⟨r, mem_of_mem_stridedSlice hr, hrt.symm⟩

/-- C10 witness: the table fragment of the spec's example dataset, every
row of which carries the formatted values of a source record. -/
theorem C10_table_row_formatting_witness :
    create_data_table (dfOfRows sample3) =
      Except.ok (sample3.map
        (fun r => (fmtFixed 1 r.x, fmtFixed 2 r.shear, fmtFixed 2 r.moment))) ∧
    ∀ t ∈ sample3.map (fun r => (fmtFixed 1 r.x, fmtFixed 2 r.shear, fmtFixed 2 r.moment)),
      ∃ r ∈ sample3, t = (fmtFixed 1 r.x, fmtFixed 2 r.shear, fmtFixed 2 r.moment) := by
  have h : create_data_table (dfOfRows sample3) =
      Except.ok (sample3.map
        (fun r => (fmtFixed 1 r.x, fmtFixed 2 r.shear, fmtFixed 2 r.moment))) := by
    rw [create_data_table_dfOfRows]
    simp [sample3]
  exact ⟨h, C10_table_row_formatting sample3 _ h⟩
